import Mathlib

/-!
Shallow embedding of the trajectory-reconstruction and feature-draping engine
of `Survey_drilling3d.py` (function `xyz` and class `DrillData`), together
with theorems checking the specification's claims against it.

Floating-point arithmetic is modelled by the real numbers; the tabular data
(pandas DataFrames) are modelled as lists of records; a Python exception that
escapes a method is modelled by `Option.none`.
-/

/-- `np.radians`: degrees to radians. -/
noncomputable def radians (x : ℝ) : ℝ := x * (Real.pi / 180)

/-- The dog-leg angle computed by `xyz` (line 31 of the source):
`dl = arccos(cos(dip2 - dip1) - sin(dip1)*sin(dip2)*(1 - cos(az2 - az1)))`,
where the dips have already been replaced by their zenith form `90 - dip`
and all angles converted to radians. -/
noncomputable def dogLeg (az1 dip1 az2 dip2 : ℝ) : ℝ :=
  let a1 := radians az1
  let d1 := radians (90 - dip1)
  let a2 := radians az2
  let d2 := radians (90 - dip2)
  Real.arccos (Real.cos (d2 - d1) - Real.sin d1 * Real.sin d2 * (1 - Real.cos (a2 - a1)))

/-- The ratio factor of `xyz` (lines 33-36 of the source): minimum curvature
`2*tan(dl/2)/dl` when `dl != 0`, balanced tangential `1` otherwise. -/
noncomputable def ratioFactor (dl : ℝ) : ℝ :=
  if dl ≠ 0 then 2 * Real.tan (dl / 2) / dl else 1

/-- The function `xyz(d, az1, dip1, az2, dip2)` (lines 19-42 of the source):
the 3D displacement `(dx, dy, dz)` of a segment of course length `d` between
two survey stations. -/
noncomputable def xyz (d az1 dip1 az2 dip2 : ℝ) : ℝ × ℝ × ℝ :=
  let a1 := radians az1
  let d1 := radians (90 - dip1)
  let a2 := radians az2
  let d2 := radians (90 - dip2)
  let rf := ratioFactor (dogLeg az1 dip1 az2 dip2)
  let dz := -0.5 * d * (Real.cos d1 + Real.cos d2) * rf
  let dy := 0.5 * d * (Real.sin d1 * Real.cos a1 + Real.sin d2 * Real.cos a2) * rf
  let dx := 0.5 * d * (Real.sin d1 * Real.sin a1 + Real.sin d2 * Real.sin a2) * rf
  (dx, dy, dz)

/-- The unit direction vector of a single survey station, built from the
zenith form of its dip and its azimuth (the direction both station terms of
`xyz` degenerate to when the stations coincide). -/
noncomputable def dirVec (az dip : ℝ) : ℝ × ℝ × ℝ :=
  (Real.sin (radians (90 - dip)) * Real.sin (radians az),
   Real.sin (radians (90 - dip)) * Real.cos (radians az),
   -Real.cos (radians (90 - dip)))

/-- Euclidean magnitude of a displacement vector. -/
noncomputable def mag (v : ℝ × ℝ × ℝ) : ℝ :=
  Real.sqrt (v.1 ^ 2 + v.2.1 ^ 2 + v.2.2 ^ 2)

/-- `np.cumsum(·, axis=0)` on a list of 3D vectors: the list of running
partial sums (inclusive). -/
def cumsum (l : List (ℝ × ℝ × ℝ)) : List (ℝ × ℝ × ℝ) :=
  (l.scanl (fun a b => a + b) 0).tail

/-- The per-segment displacements of one borehole (lines 223-226 of the
source): for each consecutive pair of survey stations `(AT, AZ, DIP)`,
`xyz` applied to the AT difference and the two stations' azimuth/dip. -/
noncomputable def displacements (stations : List (ℝ × ℝ × ℝ)) : List (ℝ × ℝ × ℝ) :=
  List.zipWith (fun s t => xyz (t.1 - s.1) s.2.1 s.2.2 t.2.1 t.2.2) stations stations.tail

/-- The Trajectory Builder (lines 223-230 of the source): knots are the
cumulative sum of `(0,0,0)` followed by the per-segment displacements,
translated by the collar position `c`. -/
noncomputable def buildKnots (c : ℝ × ℝ × ℝ) (stations : List (ℝ × ℝ × ℝ)) :
    List (ℝ × ℝ × ℝ) :=
  (cumsum ((0, 0, 0) :: displacements stations)).map (fun k => k + c)

/-- Degree of the fitted spline (lines 233-236 of the source): degree 2 when
the borehole has more than 3 survey stations, else degree 1. -/
def splineDegreeChoice (n : ℕ) : ℕ :=
  if n > 3 then 2 else 1

/-- A row of the collar table: `ID, X, Y, Z`. -/
structure CollarRow where
  id : String
  X : ℝ
  Y : ℝ
  Z : ℝ

/-- A row of the survey table: `ID, AT, AZ, DIP`. -/
structure SurveyRow where
  id : String
  AT : ℝ
  AZ : ℝ
  DIP : ℝ

/-- A row of the feature table: `ID, FROM, TO` and one feature column of
values of type `α` (text for a categorical feature, real for a numeric one). -/
structure TableRow (α : Type) where
  id : String
  FROM : ℝ
  TO : ℝ
  feature : α

/-- One row of the output points table: nullable `X, Y, Z` (a row with all
three `none` is a gap marker) and the feature value column. -/
structure GPoint (α : Type) where
  px : Option ℝ
  py : Option ℝ
  pz : Option ℝ
  val : α

/-- `pandas.Series.unique`: the distinct elements in order of first
appearance. -/
def uniqueFirst (l : List String) : List String :=
  l.foldl (fun acc i => if i ∈ acc then acc else acc ++ [i]) []

/-- The `(AT, AZ, DIP)` triples of one borehole's survey rows, in table row
order (`survey[survey["ID"] == dh].values[:, 1:]`). -/
def stationsOf (survey : List SurveyRow) (dh : String) : List (ℝ × ℝ × ℝ) :=
  (survey.filter (fun r => r.id = dh)).map (fun r => (r.AT, r.AZ, r.DIP))

/-- The collar position of one borehole
(`collar[collar["ID"] == dh].values[0][1:]`); `none` models the IndexError
raised when the borehole has no collar row. -/
def collarOf (collar : List CollarRow) (dh : String) : Option (ℝ × ℝ × ℝ) :=
  ((collar.filter (fun r => r.id = dh)).head?).map (fun r => (r.X, r.Y, r.Z))

/-- One borehole's feature rows, in table row order. -/
def featuresOf {α : Type} (table : List (TableRow α)) (dh : String) :
    List (TableRow α) :=
  table.filter (fun r => r.id = dh)

/-- `dh_feature[:, 1].max()` (line 239 of the source): the maximum TO value
of one borehole's feature rows; `none` models the ValueError numpy raises on
an empty array. -/
noncomputable def maxTO {α : Type} : List (TableRow α) → Option ℝ
  | [] => none
  | r :: rs => some (rs.foldl (fun m q => max m q.TO) r.TO)

/-- The categorical draping loop (lines 244-250 of the source): for each
feature row, sample the curve at `FROM/L` and `TO/L`, emit the two sampled
points carrying the row's value and then a gap marker carrying the same
value. -/
noncomputable def drapeCat {α : Type} (f : ℝ → ℝ × ℝ × ℝ) (L : ℝ) :
    List (TableRow α) → List (GPoint α)
  | [] => []
  | r :: rs =>
      ⟨some (f (r.FROM / L)).1, some (f (r.FROM / L)).2.1,
        some (f (r.FROM / L)).2.2, r.feature⟩ ::
      ⟨some (f (r.TO / L)).1, some (f (r.TO / L)).2.1,
        some (f (r.TO / L)).2.2, r.feature⟩ ::
      ⟨none, none, none, r.feature⟩ :: drapeCat f L rs

/-- The per-interval part of the numeric draping loop (lines 281-286 of the
source): two sampled points per feature row, no per-interval gap. -/
noncomputable def drapeNumLoop (f : ℝ → ℝ × ℝ × ℝ) (L : ℝ) :
    List (TableRow ℝ) → List (GPoint (Option ℝ))
  | [] => []
  | r :: rs =>
      ⟨some (f (r.FROM / L)).1, some (f (r.FROM / L)).2.1,
        some (f (r.FROM / L)).2.2, some r.feature⟩ ::
      ⟨some (f (r.TO / L)).1, some (f (r.TO / L)).2.1,
        some (f (r.TO / L)).2.2, some r.feature⟩ :: drapeNumLoop f L rs

/-- Numeric draping of one borehole (lines 281-288 of the source): the
per-interval points followed by a single gap marker whose value is NaN
(modelled as `none`). -/
noncomputable def drapeNum (f : ℝ → ℝ × ℝ × ℝ) (L : ℝ)
    (rows : List (TableRow ℝ)) : List (GPoint (Option ℝ)) :=
  drapeNumLoop f L rows ++ [⟨none, none, none, none⟩]

/-- The fitted curve of one borehole: the external spline fit (scipy
`splprep`/`splev`, abstracted as the parameter `fit`) applied to the degree
chosen from the station count and to the knots built from the collar and the
survey rows. `none` models the IndexError of a missing collar row. -/
noncomputable def boreholeCurve (fit : ℕ → List (ℝ × ℝ × ℝ) → ℝ → ℝ × ℝ × ℝ)
    (collar : List CollarRow) (survey : List SurveyRow) (dh : String) :
    Option (ℝ → ℝ × ℝ × ℝ) :=
  (collarOf collar dh).map (fun c =>
    fit (splineDegreeChoice (stationsOf survey dh).length)
      (buildKnots c (stationsOf survey dh)))

/-- The work done for one borehole inside the categorical branch of
`get_points`: build the curve, take the max TO, drape; `none` models an
exception escaping (missing collar row or empty feature table). -/
noncomputable def blockCat {α : Type} (fit : ℕ → List (ℝ × ℝ × ℝ) → ℝ → ℝ × ℝ × ℝ)
    (collar : List CollarRow) (survey : List SurveyRow)
    (table : List (TableRow α)) (dh : String) : Option (List (GPoint α)) := do
  let curve ← boreholeCurve fit collar survey dh
  let L ← maxTO (featuresOf table dh)
  pure (drapeCat curve L (featuresOf table dh))

/-- The work done for one borehole inside the numeric branch of
`get_points`. -/
noncomputable def blockNum (fit : ℕ → List (ℝ × ℝ × ℝ) → ℝ → ℝ × ℝ × ℝ)
    (collar : List CollarRow) (survey : List SurveyRow)
    (table : List (TableRow ℝ)) (dh : String) :
    Option (List (GPoint (Option ℝ))) := do
  let curve ← boreholeCurve fit collar survey dh
  let L ← maxTO (featuresOf table dh)
  pure (drapeNum curve L (featuresOf table dh))

/-- The categorical branch of `get_points` (lines 215-250 of the source):
iterate over the distinct survey IDs in first-appearance order, extending one
shared points list; an exception in any borehole aborts the whole call
(`none`). -/
noncomputable def getPointsCat {α : Type} (fit : ℕ → List (ℝ × ℝ × ℝ) → ℝ → ℝ × ℝ × ℝ)
    (collar : List CollarRow) (survey : List SurveyRow)
    (table : List (TableRow α)) : Option (List (GPoint α)) :=
  (uniqueFirst (survey.map (fun r => r.id))).foldlM
    (fun acc dh => (blockCat fit collar survey table dh).map (fun b => acc ++ b)) []

/-- The numeric branch of `get_points` (lines 252-288 of the source). -/
noncomputable def getPointsNum (fit : ℕ → List (ℝ × ℝ × ℝ) → ℝ → ℝ × ℝ × ℝ)
    (collar : List CollarRow) (survey : List SurveyRow)
    (table : List (TableRow ℝ)) : Option (List (GPoint (Option ℝ))) :=
  (uniqueFirst (survey.map (fun r => r.id))).foldlM
    (fun acc dh => (blockNum fit collar survey table dh).map (fun b => acc ++ b)) []

/-- Lift a categorical point into the common value space `Option ℝ` used by
the stateful model (embedding glue only: the value column of the points
DataFrame holds either a feature value or NaN). -/
def liftPoint (p : GPoint ℝ) : GPoint (Option ℝ) :=
  ⟨p.px, p.py, p.pz, some p.val⟩

/-- The mutable state of a `DrillData` object that the claims depend on:
the three tables, the `validated` and `has_points` flags, and the points
attribute (`none` while unset). -/
structure DrillData where
  collar : List CollarRow
  survey : List SurveyRow
  table : List (TableRow ℝ)
  validated : Bool
  has_points : Bool
  points : Option (List (GPoint (Option ℝ)))

/-- `DrillData.validate_survey` (lines 112-133 of the source): when the
`validated` flag is clear the method only prints and returns; otherwise it
collects the boreholes with at most one survey row and sets `validated` to
whether that list is empty. -/
def validate_survey (s : DrillData) : DrillData :=
  if s.validated = false then s
  else
    let one_row_dh := (uniqueFirst (s.survey.map (fun r => r.id))).filter
      (fun dh => (s.survey.filter (fun r => r.id = dh)).length ≤ 1)
    { s with validated := one_row_dh.isEmpty }

/-- `DrillData.get_points` (lines 199-292 of the source): refuse (state
unchanged) when `validated` is clear; otherwise run the branch selected by
the `dtype` string and, on success, store the points and set `has_points`.
Any other `dtype` leaves the points list empty and still sets `has_points`.
The outer `Option` models an exception escaping the method. -/
noncomputable def get_points (fit : ℕ → List (ℝ × ℝ × ℝ) → ℝ → ℝ × ℝ × ℝ)
    (s : DrillData) (dtype : String) : Option DrillData :=
  if s.validated = false then some s
  else if dtype = "categorical" then
    (getPointsCat fit s.collar s.survey s.table).map
      (fun pts => { s with points := some (pts.map liftPoint), has_points := true })
  else if dtype = "numeric" then
    (getPointsNum fit s.collar s.survey s.table).map
      (fun pts => { s with points := some pts, has_points := true })
  else
    some { s with points := some [], has_points := true }

/-- Modelled from the spec: the curve sampling operation `Curve.sample` is
implemented by the external interpolation library (scipy `splev`), not by
code under `src/`; per the spec it is defined over the closed interval
`[0,1]` and rejects any parameter outside it with a `ParameterOutOfRange`
error. -/
noncomputable def sampleChecked (curve : ℝ → ℝ × ℝ × ℝ) (u : ℝ) :
    Except String (ℝ × ℝ × ℝ) :=
  if u < 0 ∨ 1 < u then Except.error "ParameterOutOfRange" else Except.ok (curve u)

/-- A trivial spline-fit stand-in used by the concrete examples. -/
def exFit : ℕ → List (ℝ × ℝ × ℝ) → ℝ → ℝ × ℝ × ℝ :=
  fun _ _ _ => (0, 0, 0)

/-- Concrete batch for C7: borehole DH1 has two survey stations, borehole
DH2 has exactly one. -/
def exDrill7 : DrillData :=
  { collar := [⟨"DH1", 1000, 1000, 500⟩, ⟨"DH2", 0, 0, 0⟩]
    survey := [⟨"DH1", 0, 0, 0⟩, ⟨"DH1", 50, 10, 5⟩, ⟨"DH2", 0, 0, 0⟩]
    table := [⟨"DH1", 0, 50, 1⟩, ⟨"DH2", 0, 10, 2⟩]
    validated := true
    has_points := false
    points := none }

/-- Concrete batch for C8: both boreholes have two survey stations, but
borehole DH2 has zero feature rows; the `validated` flag is set. -/
def exDrill8 : DrillData :=
  { collar := [⟨"DH1", 1000, 1000, 500⟩, ⟨"DH2", 0, 0, 0⟩]
    survey := [⟨"DH1", 0, 0, 0⟩, ⟨"DH1", 50, 10, 5⟩, ⟨"DH2", 0, 0, 0⟩, ⟨"DH2", 40, 0, 0⟩]
    table := [⟨"DH1", 0, 50, 1⟩]
    validated := true
    has_points := false
    points := none }

/-- Concrete validated batch with one well-formed borehole, used by
witnesses. -/
def exDrill10 : DrillData :=
  { collar := [⟨"A", 0, 0, 0⟩]
    survey := [⟨"A", 0, 0, 0⟩, ⟨"A", 10, 0, 0⟩]
    table := [⟨"A", 0, 5, 1⟩]
    validated := true
    has_points := false
    points := none }

/-- Concrete feature rows used by the normalization witness. -/
def exRows5 : List (TableRow ℝ) :=
  [⟨"A", 0, 2, 1⟩, ⟨"A", 1, 4, 2⟩]

/-- C1: for identical survey stations the Segment Solver computes a zero
dog-leg angle, falls back to ratio factor 1, and returns `d` times the shared
unit direction vector, a displacement of magnitude exactly `d`. -/
theorem xyz_identical_stations (d az1 dip1 az2 dip2 : ℝ)
    (hd : 0 ≤ d) (ha : az1 = az2) (hp : dip1 = dip2) :
    dogLeg az1 dip1 az2 dip2 = 0 ∧
    ratioFactor (dogLeg az1 dip1 az2 dip2) = 1 ∧
    xyz d az1 dip1 az2 dip2 = d • dirVec az1 dip1 ∧
    mag (dirVec az1 dip1) = 1 ∧
    mag (xyz d az1 dip1 az2 dip2) = d := by
  subst ha hp
  have hdl : dogLeg az1 dip1 az1 dip1 = 0 := by
    simp [dogLeg, Real.arccos_one]
  have hrf : ratioFactor (dogLeg az1 dip1 az1 dip1) = 1 := by
    rw [hdl]; simp [ratioFactor]
  have hsum : Real.sin (radians (90 - dip1)) ^ 2 * Real.sin (radians az1) ^ 2 +
      Real.sin (radians (90 - dip1)) ^ 2 * Real.cos (radians az1) ^ 2 +
      Real.cos (radians (90 - dip1)) ^ 2 = 1 := by
    have h1 := Real.sin_sq_add_cos_sq (radians az1)
    have h2 := Real.sin_sq_add_cos_sq (radians (90 - dip1))
    linear_combination Real.sin (radians (90 - dip1)) ^ 2 * h1 + h2
  have hx : xyz d az1 dip1 az1 dip1 = d • dirVec az1 dip1 := by
    simp only [xyz, dirVec, hrf, Prod.smul_mk, smul_eq_mul]
    refine Prod.ext ?_ (Prod.ext ?_ ?_) <;> simp <;> ring
  refine ⟨hdl, hrf, hx, ?_, ?_⟩
  · have : Real.sin (radians (90 - dip1)) * Real.sin (radians az1) ^ 2 *
        Real.sin (radians (90 - dip1)) = 1 - (Real.sin (radians (90 - dip1)) *
        Real.cos (radians az1)) ^ 2 - Real.cos (radians (90 - dip1)) ^ 2 := by
      linear_combination hsum
    simp only [mag, dirVec]
    rw [show (Real.sin (radians (90 - dip1)) * Real.sin (radians az1)) ^ 2 +
        (Real.sin (radians (90 - dip1)) * Real.cos (radians az1)) ^ 2 +
        (-Real.cos (radians (90 - dip1))) ^ 2 = 1 by linear_combination hsum]
    exact Real.sqrt_one
  · rw [hx]
    simp only [mag, dirVec, Prod.smul_mk, smul_eq_mul]
    rw [show (d * (Real.sin (radians (90 - dip1)) * Real.sin (radians az1))) ^ 2 +
        (d * (Real.sin (radians (90 - dip1)) * Real.cos (radians az1))) ^ 2 +
        (d * -Real.cos (radians (90 - dip1))) ^ 2 = d ^ 2 by linear_combination d ^ 2 * hsum]
    exact Real.sqrt_sq hd

/-- Witness for C1 at the concrete input `d = 2`, `az = 30`, `dip = 45`. -/
theorem xyz_identical_stations_witness :
    (0 : ℝ) ≤ 2 ∧
    (dogLeg 30 45 30 45 = 0 ∧
     ratioFactor (dogLeg 30 45 30 45) = 1 ∧
     xyz 2 30 45 30 45 = (2 : ℝ) • dirVec 30 45 ∧
     mag (dirVec 30 45) = 1 ∧
     mag (xyz 2 30 45 30 45) = 2) :=
  ⟨by norm_num, xyz_identical_stations 2 30 45 30 45 (by norm_num) rfl rfl⟩

lemma scanl_add_getElem_succ (l : List (ℝ × ℝ × ℝ)) (a : ℝ × ℝ × ℝ) (i : ℕ) :
    (l.scanl (fun x y => x + y) a)[i + 1]? =
      Option.map₂ (fun x y => x + y) ((l.scanl (fun x y => x + y) a)[i]?) l[i]? := by
  induction l generalizing a i with
  | nil => simp [List.scanl_nil]
  | cons x xs ih =>
      rw [List.scanl_cons]
      cases i with
      | zero =>
          cases xs with
          | nil => simp [List.scanl_nil]
          | cons y ys => simp [List.scanl_cons]
      | succ j =>
          simp only [List.singleton_append, List.getElem?_cons_succ]
          exact ih (a + x) j

lemma cumsum_getElem_succ (l : List (ℝ × ℝ × ℝ)) (i : ℕ) :
    (cumsum l)[i + 1]? =
      Option.map₂ (fun x y => x + y) ((cumsum l)[i]?) l[i + 1]? := by
  cases l with
  | nil => simp [cumsum, List.scanl_nil]
  | cons x xs =>
      have hc : cumsum (x :: xs) = xs.scanl (fun p q => p + q) (0 + x) := by
        simp [cumsum, List.scanl_cons]
      rw [hc, List.getElem?_cons_succ]
      exact scanl_add_getElem_succ xs (0 + x) i

lemma scanl_add_head? (l : List (ℝ × ℝ × ℝ)) (a : ℝ × ℝ × ℝ) :
    (l.scanl (fun x y => x + y) a).head? = some a := by
  cases l with
  | nil => simp [List.scanl_nil]
  | cons x xs => simp [List.scanl_cons]

lemma buildKnots_length (c : ℝ × ℝ × ℝ) (stations : List (ℝ × ℝ × ℝ)) :
    (buildKnots c stations).length = max stations.length 1 := by
  simp only [buildKnots, cumsum, displacements, List.length_map, List.length_tail,
    List.length_scanl, List.length_cons, List.length_zipWith]
  cases stations <;> simp

lemma buildKnots_head? (c : ℝ × ℝ × ℝ) (stations : List (ℝ × ℝ × ℝ)) :
    (buildKnots c stations).head? = some c := by
  have hz : ((0, 0, 0) : ℝ × ℝ × ℝ) + c = c := by
    obtain ⟨c1, c2, c3⟩ := c
    simp [Prod.mk_add_mk]
  have hc : cumsum ((0, 0, 0) :: displacements stations) =
      (displacements stations).scanl (fun p q => p + q) (0 + (0, 0, 0)) := by
    simp [cumsum, List.scanl_cons]
  simp only [buildKnots, hc, List.head?_map, scanl_add_head?, Option.map_some']
  rw [zero_add, hz]

/-- C2: for a borehole with at least two survey stations the Trajectory
Builder produces exactly one knot per station, the first knot is exactly the
collar position, and each later knot is the previous knot plus the
corresponding segment displacement (the knots are the cumulative sum of the
displacements, anchored at the collar). -/
theorem trajectory_builder_knots (c : ℝ × ℝ × ℝ) (stations : List (ℝ × ℝ × ℝ))
    (h : 2 ≤ stations.length) :
    (buildKnots c stations).length = stations.length ∧
    (buildKnots c stations).head? = some c ∧
    ∀ i : ℕ, (buildKnots c stations)[i + 1]? =
      Option.map₂ (fun p q => p + q) ((buildKnots c stations)[i]?)
        ((displacements stations)[i]?) := by
  refine ⟨?_, buildKnots_head? c stations, ?_⟩
  · rw [buildKnots_length]; omega
  · intro i
    simp only [buildKnots, List.getElem?_map, cumsum_getElem_succ,
      List.getElem?_cons_succ]
    cases hu : (cumsum ((0, 0, 0) :: displacements stations))[i]? with
    | none => simp
    | some u =>
        cases hv : (displacements stations)[i]? with
        | none => simp
        | some v =>
            simp only [Option.map_some', Option.map₂_some_some]
            rw [add_right_comm]

/-- Witness for C2 at a concrete collar and two concrete survey stations. -/
theorem trajectory_builder_knots_witness :
    2 ≤ ([((0 : ℝ), (0 : ℝ), (0 : ℝ)), (10, 0, 0)] : List (ℝ × ℝ × ℝ)).length ∧
    ((buildKnots (1, 2, 3) [((0 : ℝ), (0 : ℝ), (0 : ℝ)), (10, 0, 0)]).length =
        ([((0 : ℝ), (0 : ℝ), (0 : ℝ)), (10, 0, 0)] : List (ℝ × ℝ × ℝ)).length ∧
      (buildKnots (1, 2, 3) [((0 : ℝ), (0 : ℝ), (0 : ℝ)), (10, 0, 0)]).head? =
        some (1, 2, 3) ∧
      ∀ i : ℕ, (buildKnots (1, 2, 3) [((0 : ℝ), (0 : ℝ), (0 : ℝ)), (10, 0, 0)])[i + 1]? =
        Option.map₂ (fun p q => p + q)
          ((buildKnots (1, 2, 3) [((0 : ℝ), (0 : ℝ), (0 : ℝ)), (10, 0, 0)])[i]?)
          ((displacements [((0 : ℝ), (0 : ℝ), (0 : ℝ)), (10, 0, 0)])[i]?)) :=
  ⟨by simp, trajectory_builder_knots (1, 2, 3) [(0, 0, 0), (10, 0, 0)] (by simp)⟩

/-- C4: the Curve Fitter selects degree 2 exactly when more than 3 knots are
available, degree 1 otherwise; in particular a borehole with exactly 3
survey stations gets the degree-1 branch. -/
theorem curve_fitter_degree (c : ℝ × ℝ × ℝ) (stations : List (ℝ × ℝ × ℝ)) :
    (splineDegreeChoice stations.length = 2 ↔ 3 < (buildKnots c stations).length) ∧
    (splineDegreeChoice stations.length = 1 ↔ ¬ 3 < (buildKnots c stations).length) ∧
    splineDegreeChoice 3 = 1 := by
  rw [buildKnots_length]
  unfold splineDegreeChoice
  refine ⟨?_, ?_, by norm_num⟩ <;> split <;> omega

lemma drapeCat_length {α : Type} (f : ℝ → ℝ × ℝ × ℝ) (L : ℝ)
    (rows : List (TableRow α)) : (drapeCat f L rows).length = 3 * rows.length := by
  induction rows with
  | nil => simp [drapeCat]
  | cons r rs ih => simp [drapeCat, ih]; ring

lemma drapeCat_third {α : Type} (f : ℝ → ℝ × ℝ × ℝ) (L : ℝ)
    (rows : List (TableRow α)) : ∀ i : ℕ,
    (drapeCat f L rows)[3 * i + 2]? =
      (rows[i]?).map (fun r => (⟨none, none, none, r.feature⟩ : GPoint α)) := by
  induction rows with
  | nil => intro i; simp [drapeCat]
  | cons r rs ih =>
      intro i
      cases i with
      | zero => simp [drapeCat]
      | succ j =>
          have h3 : 3 * (j + 1) + 2 = 3 * j + 2 + 1 + 1 + 1 := by ring
          rw [h3]
          simp only [drapeCat, List.getElem?_cons_succ]
          exact ih j

lemma drapeNumLoop_length (f : ℝ → ℝ × ℝ × ℝ) (L : ℝ) (rows : List (TableRow ℝ)) :
    (drapeNumLoop f L rows).length = 2 * rows.length := by
  induction rows with
  | nil => simp [drapeNumLoop]
  | cons r rs ih => simp [drapeNumLoop, ih]; ring

/-- C3: categorical draping of `N` feature rows emits exactly `3N` points
and every third point is a gap marker (null position) carrying that row's
value; numeric draping of `N` feature rows for one borehole emits exactly
`2N + 1` points, the last being a single gap marker with null position and
NaN value. -/
theorem drape_point_counts {α : Type} (f : ℝ → ℝ × ℝ × ℝ) (L : ℝ)
    (rows : List (TableRow α)) (rowsN : List (TableRow ℝ)) :
    (drapeCat f L rows).length = 3 * rows.length ∧
    (∀ i : ℕ, (drapeCat f L rows)[3 * i + 2]? =
      (rows[i]?).map (fun r => (⟨none, none, none, r.feature⟩ : GPoint α))) ∧
    (drapeNum f L rowsN).length = 2 * rowsN.length + 1 ∧
    (drapeNum f L rowsN).getLast? = some ⟨none, none, none, none⟩ := by
  refine ⟨drapeCat_length f L rows, drapeCat_third f L rows, ?_, ?_⟩
  · simp [drapeNum, drapeNumLoop_length]
  · exact List.getLast?_concat _

lemma foldl_max_init_le {α : Type} (rs : List (TableRow α)) :
    ∀ init : ℝ, init ≤ rs.foldl (fun m q => max m q.TO) init := by
  induction rs with
  | nil => intro init; simp
  | cons q rs ih =>
      intro init
      simp only [List.foldl_cons]
      exact le_trans (le_max_left _ _) (ih _)

lemma foldl_max_mem_le {α : Type} (rs : List (TableRow α)) :
    ∀ init : ℝ, ∀ q ∈ rs, q.TO ≤ rs.foldl (fun m p => max m p.TO) init := by
  induction rs with
  | nil => intro init q hq; simp at hq
  | cons p rs ih =>
      intro init q hq
      rcases List.mem_cons.mp hq with rfl | h
      · exact le_trans (le_max_right _ _) (foldl_max_init_le rs (max init q.TO))
      · exact ih (max init p.TO) q h

lemma maxTO_bounds {α : Type} (rows : List (TableRow α)) (L : ℝ)
    (h : maxTO rows = some L) : ∀ r ∈ rows, r.TO ≤ L := by
  cases rows with
  | nil => simp [maxTO] at h
  | cons r0 rs =>
      simp only [maxTO, Option.some_inj] at h
      intro r hr
      rcases List.mem_cons.mp hr with rfl | hmem
      · exact h ▸ foldl_max_init_le rs r.TO
      · exact h ▸ foldl_max_mem_le rs r0.TO r hmem

/-- C5: the Feature Draper normalizes each interval's FROM and TO by the
maximum TO of the borehole's feature rows; under the precondition
`0 ≤ FROM < TO` for every interval, both normalized parameters lie in
`[0, 1]`. -/
theorem drape_normalization_unit {α : Type} (rows : List (TableRow α)) (L : ℝ)
    (hL : maxTO rows = some L)
    (hprec : ∀ r ∈ rows, 0 ≤ r.FROM ∧ r.FROM < r.TO) :
    ∀ r ∈ rows, (0 ≤ r.FROM / L ∧ r.FROM / L ≤ 1) ∧
      (0 ≤ r.TO / L ∧ r.TO / L ≤ 1) := by
  have hLpos : 0 < L := by
    cases rows with
    | nil => simp [maxTO] at hL
    | cons r0 rs =>
        have h0 := hprec r0 (List.mem_cons_self r0 rs)
        have hb := maxTO_bounds (r0 :: rs) L hL r0 (List.mem_cons_self r0 rs)
        linarith [h0.1, h0.2]
  intro r hr
  obtain ⟨hF, hFT⟩ := hprec r hr
  have hTL := maxTO_bounds rows L hL r hr
  refine ⟨⟨div_nonneg hF hLpos.le, ?_⟩, ⟨div_nonneg (by linarith) hLpos.le, ?_⟩⟩
  · exact (div_le_one hLpos).mpr (by linarith)
  · exact (div_le_one hLpos).mpr hTL

/-- Witness for C5 on two concrete feature rows with maximum TO equal 4. -/
theorem drape_normalization_unit_witness :
    maxTO exRows5 = some 4 ∧
    (∀ r ∈ exRows5, 0 ≤ r.FROM ∧ r.FROM < r.TO) ∧
    (∀ r ∈ exRows5, (0 ≤ r.FROM / 4 ∧ r.FROM / 4 ≤ 1) ∧
      (0 ≤ r.TO / 4 ∧ r.TO / 4 ≤ 1)) := by
  have h1 : maxTO exRows5 = some 4 := by
    simp only [exRows5, maxTO, List.foldl_cons, List.foldl_nil]
    norm_num
  have h2 : ∀ r ∈ exRows5, 0 ≤ r.FROM ∧ r.FROM < r.TO := by
    intro r hr
    simp only [exRows5, List.mem_cons, List.not_mem_nil, or_false] at hr
    rcases hr with rfl | rfl <;> norm_num
  exact ⟨h1, h2, drape_normalization_unit exRows5 4 h1 h2⟩

/-- C6: sampling the fitted curve at a parameter outside the closed interval
`[0, 1]` is rejected with a `ParameterOutOfRange` error instead of returning
an extrapolated point. -/
theorem sample_rejects_out_of_range (curve : ℝ → ℝ × ℝ × ℝ) (u : ℝ)
    (h : u < 0 ∨ 1 < u) :
    sampleChecked curve u = Except.error "ParameterOutOfRange" := by
  simp [sampleChecked, h]

/-- Witness for C6 at the concrete out-of-range parameter `u = 2`. -/
theorem sample_rejects_out_of_range_witness :
    ((2 : ℝ) < 0 ∨ 1 < (2 : ℝ)) ∧
    sampleChecked (fun _ => ((0 : ℝ), (0 : ℝ), (0 : ℝ))) 2 =
      Except.error "ParameterOutOfRange" :=
  ⟨by norm_num,
   sample_rejects_out_of_range (fun _ => ((0 : ℝ), (0 : ℝ), (0 : ℝ))) 2 (by norm_num)⟩

lemma foldlM_blocks_some {β γ : Type} (g : β → Option (List γ)) :
    ∀ (l : List β) (acc : List γ), (∀ x ∈ l, (g x).isSome) →
      l.foldlM (fun a x => (g x).map (fun b => a ++ b)) acc =
        some (acc ++ l.flatMap (fun x => (g x).getD [])) := by
  intro l
  induction l with
  | nil => intro acc _; simp
  | cons x xs ih =>
      intro acc h
      obtain ⟨b, hb⟩ := Option.isSome_iff_exists.mp (h x (List.mem_cons_self x xs))
      rw [List.foldlM_cons]
      simp only [hb, Option.map_some']
      have := ih (acc ++ b) (fun y hy => h y (List.mem_cons_of_mem x hy))
      simp only [Option.bind_eq_bind, Option.some_bind] at *
      rw [this, List.flatMap_cons, hb]
      simp [List.append_assoc]

lemma foldlM_blocks_none {β γ : Type} (g : β → Option (List γ)) :
    ∀ (l : List β) (acc : List γ) (x : β), x ∈ l → g x = none →
      l.foldlM (fun a y => (g y).map (fun b => a ++ b)) acc = none := by
  intro l
  induction l with
  | nil => intro acc x hx; simp at hx
  | cons y ys ih =>
      intro acc x hx hgx
      rw [List.foldlM_cons]
      rcases List.mem_cons.mp hx with rfl | hmem
      · simp [hgx]
      · cases hgy : g y with
        | none => simp
        | some b =>
            simp only [hgy, Option.map_some', Option.bind_eq_bind, Option.some_bind]
            exact ih (acc ++ b) x hmem hgx

/-- C9: whenever every borehole block succeeds, the output point sequence of
each `get_points` branch is exactly the ordered concatenation of the
per-borehole blocks, boreholes in survey-table first-appearance ID order and,
within each block, feature rows in table row order; the output is a function
of the input tables alone, hence deterministic. -/
theorem get_points_output_order {α : Type}
    (fit : ℕ → List (ℝ × ℝ × ℝ) → ℝ → ℝ × ℝ × ℝ)
    (collar : List CollarRow) (survey : List SurveyRow)
    (tableC : List (TableRow α)) (tableN : List (TableRow ℝ))
    (hC : ∀ dh ∈ uniqueFirst (survey.map (fun r => r.id)),
      (blockCat fit collar survey tableC dh).isSome)
    (hN : ∀ dh ∈ uniqueFirst (survey.map (fun r => r.id)),
      (blockNum fit collar survey tableN dh).isSome) :
    getPointsCat fit collar survey tableC =
      some ((uniqueFirst (survey.map (fun r => r.id))).flatMap
        (fun dh => (blockCat fit collar survey tableC dh).getD [])) ∧
    getPointsNum fit collar survey tableN =
      some ((uniqueFirst (survey.map (fun r => r.id))).flatMap
        (fun dh => (blockNum fit collar survey tableN dh).getD [])) := by
  constructor
  · rw [getPointsCat, foldlM_blocks_some _ _ _ hC]
    simp
  · rw [getPointsNum, foldlM_blocks_some _ _ _ hN]
    simp

/-- Witness for C9 on a concrete one-borehole batch in which every block
succeeds. -/
theorem get_points_output_order_witness :
    (∀ dh ∈ uniqueFirst (exDrill10.survey.map (fun r => r.id)),
      (blockCat exFit exDrill10.collar exDrill10.survey exDrill10.table dh).isSome) ∧
    (∀ dh ∈ uniqueFirst (exDrill10.survey.map (fun r => r.id)),
      (blockNum exFit exDrill10.collar exDrill10.survey exDrill10.table dh).isSome) ∧
    (getPointsCat exFit exDrill10.collar exDrill10.survey exDrill10.table =
      some ((uniqueFirst (exDrill10.survey.map (fun r => r.id))).flatMap
        (fun dh =>
          (blockCat exFit exDrill10.collar exDrill10.survey exDrill10.table dh).getD [])) ∧
    getPointsNum exFit exDrill10.collar exDrill10.survey exDrill10.table =
      some ((uniqueFirst (exDrill10.survey.map (fun r => r.id))).flatMap
        (fun dh =>
          (blockNum exFit exDrill10.collar exDrill10.survey exDrill10.table dh).getD []))) := by
  have hC : ∀ dh ∈ uniqueFirst (exDrill10.survey.map (fun r => r.id)),
      (blockCat exFit exDrill10.collar exDrill10.survey exDrill10.table dh).isSome := by
    decide
  have hN : ∀ dh ∈ uniqueFirst (exDrill10.survey.map (fun r => r.id)),
      (blockNum exFit exDrill10.collar exDrill10.survey exDrill10.table dh).isSome := by
    decide
  exact ⟨hC, hN, get_points_output_order exFit _ _ _ _ hC hN⟩

/-- C7 counterexample: a concrete batch whose borehole DH1 has two survey
stations and whose borehole DH2 has exactly one. `validate_survey` clears
the `validated` flag, and `get_points` then returns the state unchanged:
no points are produced for the well-formed borehole DH1 either, so the
failure is not isolated to DH2. -/
theorem one_station_counterexample :
    (validate_survey exDrill7).validated = false ∧
    get_points exFit (validate_survey exDrill7) "categorical" =
      some (validate_survey exDrill7) ∧
    (validate_survey exDrill7).has_points = false ∧
    (validate_survey exDrill7).points = none :=
  ⟨rfl, rfl, rfl, rfl⟩

/-- C7 amended: a borehole with exactly one survey station makes
`validate_survey` clear the `validated` flag, after which `get_points`
refuses to run for every `dtype`: the whole batch produces no points, rather
than only that borehole being excluded. -/
theorem one_station_blocks_batch (s : DrillData) (dh : String)
    (h1 : s.validated = true)
    (h2 : dh ∈ uniqueFirst (s.survey.map (fun r => r.id)))
    (h3 : (s.survey.filter (fun r => r.id = dh)).length = 1) :
    (validate_survey s).validated = false ∧
    ∀ (fit : ℕ → List (ℝ × ℝ × ℝ) → ℝ → ℝ × ℝ × ℝ) (dtype : String),
      get_points fit (validate_survey s) dtype = some (validate_survey s) := by
  have hv : (validate_survey s).validated = false := by
    unfold validate_survey
    rw [if_neg (by simp [h1])]
    have hmem : dh ∈ (uniqueFirst (s.survey.map (fun r => r.id))).filter
        (fun dh => decide ((s.survey.filter (fun r => r.id = dh)).length ≤ 1)) :=
      List.mem_filter.mpr ⟨h2, by simp [h3]⟩
    simpa using List.isEmpty_eq_false.mpr (List.ne_nil_of_mem hmem)
  refine ⟨hv, ?_⟩
  intro fit dtype
  simp [get_points, hv]

/-- Witness for the C7 amended claim at the concrete batch `exDrill7` with
deficient borehole DH2. -/
theorem one_station_blocks_batch_witness :
    exDrill7.validated = true ∧
    "DH2" ∈ uniqueFirst (exDrill7.survey.map (fun r => r.id)) ∧
    (exDrill7.survey.filter (fun r => r.id = "DH2")).length = 1 ∧
    ((validate_survey exDrill7).validated = false ∧
     ∀ (fit : ℕ → List (ℝ × ℝ × ℝ) → ℝ → ℝ × ℝ × ℝ) (dtype : String),
       get_points fit (validate_survey exDrill7) dtype =
         some (validate_survey exDrill7)) :=
  ⟨rfl, by decide, by decide,
   one_station_blocks_batch exDrill7 "DH2" rfl (by decide) (by decide)⟩

/-- C8 counterexample: a concrete validated batch whose borehole DH2 has
zero feature rows while borehole DH1 is fully well-formed (one feature row).
`get_points` aborts the whole call in both branches: no points are produced
for DH1 either, and nothing is skipped per borehole. -/
theorem empty_feature_counterexample :
    get_points exFit exDrill8 "categorical" = none ∧
    get_points exFit exDrill8 "numeric" = none ∧
    (featuresOf exDrill8.table "DH1").length = 1 :=
  ⟨rfl, rfl, rfl⟩

/-- C8 amended: when some borehole of a validated batch has zero feature
rows, `get_points` aborts wholesale (the maximum of an empty array raises):
the call produces no points for any borehole instead of signalling
`EmptyFeatureTable` and skipping just that borehole. -/
theorem empty_feature_rows_abort (fit : ℕ → List (ℝ × ℝ × ℝ) → ℝ → ℝ × ℝ × ℝ)
    (s : DrillData) (dh : String)
    (h1 : s.validated = true)
    (h2 : dh ∈ uniqueFirst (s.survey.map (fun r => r.id)))
    (h3 : featuresOf s.table dh = []) :
    get_points fit s "categorical" = none ∧ get_points fit s "numeric" = none := by
  have hbc : blockCat fit s.collar s.survey s.table dh = none := by
    unfold blockCat
    cases hcv : boreholeCurve fit s.collar s.survey dh with
    | none => simp
    | some curve => simp [h3, maxTO]
  have hbn : blockNum fit s.collar s.survey s.table dh = none := by
    unfold blockNum
    cases hcv : boreholeCurve fit s.collar s.survey dh with
    | none => simp
    | some curve => simp [h3, maxTO]
  constructor
  · simp only [get_points, h1, Bool.true_eq_false, if_false, if_pos]
    rw [getPointsCat, foldlM_blocks_none _ _ _ dh h2 hbc]
    simp
  · simp only [get_points, h1, Bool.true_eq_false, if_false]
    simp only [if_true]
    rw [getPointsNum, foldlM_blocks_none _ _ _ dh h2 hbn]
    simp

/-- Witness for the C8 amended claim at the concrete batch `exDrill8` with
feature-less borehole DH2. -/
theorem empty_feature_rows_abort_witness :
    exDrill8.validated = true ∧
    "DH2" ∈ uniqueFirst (exDrill8.survey.map (fun r => r.id)) ∧
    featuresOf exDrill8.table "DH2" = [] ∧
    (get_points exFit exDrill8 "categorical" = none ∧
     get_points exFit exDrill8 "numeric" = none) :=
  ⟨rfl, by decide, rfl,
   empty_feature_rows_abort exFit exDrill8 "DH2" rfl (by decide) rfl⟩

/-- C10: calling `get_points` on validated data with a `dtype` that is
neither "categorical" nor "numeric" raises no error: it stores an empty
points table and still sets `has_points`, so the run looks successful while
producing no geometry. -/
theorem get_points_unknown_dtype (fit : ℕ → List (ℝ × ℝ × ℝ) → ℝ → ℝ × ℝ × ℝ)
    (s : DrillData) (dtype : String)
    (h1 : s.validated = true) (h2 : dtype ≠ "categorical") (h3 : dtype ≠ "numeric") :
    get_points fit s dtype = some { s with points := some [], has_points := true } := by
  simp [get_points, h1, h2, h3]

/-- Witness for C10 at the concrete dtype string "boolean". -/
theorem get_points_unknown_dtype_witness :
    exDrill10.validated = true ∧
    "boolean" ≠ "categorical" ∧ "boolean" ≠ "numeric" ∧
    get_points exFit exDrill10 "boolean" =
      some { exDrill10 with points := some [], has_points := true } :=
  ⟨rfl, by decide, by decide,
   get_points_unknown_dtype exFit exDrill10 "boolean" rfl (by decide) (by decide)⟩

/-- Closed instance of C3 at a concrete sampler and two concrete feature
rows. -/
theorem drape_point_counts_witness :
    (drapeCat (fun _ => ((0 : ℝ), (0 : ℝ), (0 : ℝ))) 4 exRows5).length =
      3 * exRows5.length ∧
    (∀ i : ℕ, (drapeCat (fun _ => ((0 : ℝ), (0 : ℝ), (0 : ℝ))) 4 exRows5)[3 * i + 2]? =
      (exRows5[i]?).map (fun r => (⟨none, none, none, r.feature⟩ : GPoint ℝ))) ∧
    (drapeNum (fun _ => ((0 : ℝ), (0 : ℝ), (0 : ℝ))) 4 exRows5).length =
      2 * exRows5.length + 1 ∧
    (drapeNum (fun _ => ((0 : ℝ), (0 : ℝ), (0 : ℝ))) 4 exRows5).getLast? =
      some ⟨none, none, none, none⟩ :=
  drape_point_counts (fun _ => ((0 : ℝ), (0 : ℝ), (0 : ℝ))) 4 exRows5 exRows5

/-- Closed instance of C4 at a concrete collar and three concrete survey
stations. -/
theorem curve_fitter_degree_witness :
    (splineDegreeChoice
        ([((0 : ℝ), (0 : ℝ), (0 : ℝ)), (10, 0, 0), (20, 0, 0)] : List (ℝ × ℝ × ℝ)).length = 2 ↔
      3 < (buildKnots (0, 0, 0)
        [((0 : ℝ), (0 : ℝ), (0 : ℝ)), (10, 0, 0), (20, 0, 0)]).length) ∧
    (splineDegreeChoice
        ([((0 : ℝ), (0 : ℝ), (0 : ℝ)), (10, 0, 0), (20, 0, 0)] : List (ℝ × ℝ × ℝ)).length = 1 ↔
      ¬ 3 < (buildKnots (0, 0, 0)
        [((0 : ℝ), (0 : ℝ), (0 : ℝ)), (10, 0, 0), (20, 0, 0)]).length) ∧
    splineDegreeChoice 3 = 1 :=
  curve_fitter_degree (0, 0, 0) [(0, 0, 0), (10, 0, 0), (20, 0, 0)]
